import Mathlib

/-!
# Verification of the loan-notification analytics and scoring engine

Shallow embedding of the analytics core of the repository
(`upload_analyzer.py` and `message_ai_generator.py`) and proofs of the
specified properties.

Modelling conventions:
* Python `float` values are modelled as exact rationals (`ℚ`).  All numeric
  constants appearing in the source (`1.2`, `8.0`, `0.3`, ...) are exactly
  representable, so the branch structure of the embedded code matches the
  source on the inputs used in the development.
* Python `str` is modelled as Lean `String`; `str.isdigit` is modelled as
  an ASCII-digit check (the source data is ASCII digits / Korean text).
* Python dictionaries that the source iterates in insertion order are
  modelled as association lists built in insertion order.
* Korean identifiers from the source are romanised; each definition's doc
  comment names the source function it embeds.
-/

set_option allowUnsafeReducibility true in
attribute [semireducible] Rat.mul Rat.add Rat.inv Rat.sub Rat.ofScientific

namespace LoanNotif

/-- Python `str.strip()`: drop leading and trailing whitespace.
(Implemented structurally so that concrete evaluations reduce.) -/
def pyStrip (s : String) : String :=
  ⟨((s.toList.dropWhile Char.isWhitespace).reverse.dropWhile Char.isWhitespace).reverse⟩

/-- Stable insertion of `x` into `l`: `x` goes in front of the first
element `y` with `le x y`. -/
def insertLe {α : Type} (le : α → α → Bool) (x : α) : List α → List α
  | [] => [x]
  | y :: ys => if le x y then x :: y :: ys else y :: insertLe le x ys

/-- Python's stable `sorted(l, key, reverse)` for the total preorder
`le` (`le a b` = "`a` may come before `b`"), as a stable insertion sort.
A stable sort's output is uniquely determined by the preorder and the
input order, so this agrees with the source's Timsort. -/
def pySorted {α : Type} (le : α → α → Bool) : List α → List α
  | [] => []
  | x :: xs => insertLe le x (pySorted le xs)

theorem mem_insertLe {α : Type} (le : α → α → Bool) (x : α) (l : List α) (a : α) :
    a ∈ insertLe le x l ↔ a = x ∨ a ∈ l := by
  induction l with
  | nil => simp [insertLe]
  | cons y ys ih =>
    unfold insertLe
    split
    · simp
    · simp only [List.mem_cons, ih]
      tauto

theorem length_insertLe {α : Type} (le : α → α → Bool) (x : α) (l : List α) :
    (insertLe le x l).length = l.length + 1 := by
  induction l with
  | nil => rfl
  | cons y ys ih =>
    unfold insertLe
    split
    · rfl
    · simp [ih]

theorem mem_pySorted {α : Type} (le : α → α → Bool) (l : List α) (a : α) :
    a ∈ pySorted le l ↔ a ∈ l := by
  induction l with
  | nil => rfl
  | cons y ys ih =>
    unfold pySorted
    rw [mem_insertLe, ih]
    simp

theorem length_pySorted {α : Type} (le : α → α → Bool) (l : List α) :
    (pySorted le l).length = l.length := by
  induction l with
  | nil => rfl
  | cons y ys ih =>
    unfold pySorted
    rw [length_insertLe, ih]
    rfl

/-- `int(q)` for Python: truncation toward zero. -/
def pyTrunc (q : ℚ) : ℤ :=
  if 0 ≤ q then ⌊q⌋ else -⌊-q⌋

/-- Python `round` on a value exactly representable: round half to even. -/
def roundHalfEven (q : ℚ) : ℤ :=
  let n : ℤ := ⌊q⌋
  let f : ℚ := q - (n : ℚ)
  if f < 1/2 then n
  else if 1/2 < f then n + 1
  else if n % 2 = 0 then n else n + 1

/-- Python `round(x, 2)`. -/
def pyRound2 (q : ℚ) : ℚ := (roundHalfEven (q * 100) : ℚ) / 100

/-- Python `round(x, 1)`. -/
def pyRound1 (q : ℚ) : ℚ := (roundHalfEven (q * 10) : ℚ) / 10

/-- Substring test on character lists (Python `needle in hay`). -/
def containsSub (needle : List Char) : List Char → Bool
  | [] => needle.isEmpty
  | c :: t => needle.isPrefixOf (c :: t) || containsSub needle t

/-- Python `needle in hay` for strings. -/
def strContains (hay needle : String) : Bool :=
  containsSub needle.toList hay.toList

/-- Numeric value of a list of ASCII digit characters. -/
def digitsVal (cs : List Char) : ℕ :=
  cs.foldl (fun a c => 10 * a + (c.toNat - 48)) 0

/-- Python `float(s)` restricted to strings made of ASCII digits and dots:
succeeds iff the string contains at least one digit, nothing but digits and
dots, and at most one dot.  (Signs, exponents, `inf`/`nan` never reach this
call in the embedded code paths.) -/
def pyFloatDigitsDots (cs : List Char) : Option ℚ :=
  if cs.all (fun c => c.isDigit || c = '.') && cs.any Char.isDigit
      && cs.count '.' ≤ 1 then
    match cs.splitOn '.' with
    | [i] => some (digitsVal i : ℚ)
    | [i, f] => some ((digitsVal i : ℚ) + (digitsVal f : ℚ) / (10 ^ f.length : ℕ))
    | _ => none
  else
    none

/-- Python `float(s)` with an optional leading sign, digits and dots
(the subset reachable from `safe_int`; exponents and `inf`/`nan` are out of
the modelled input space). -/
def pyFloatSigned (cs : List Char) : Option ℚ :=
  match cs with
  | '-' :: rest => (pyFloatDigitsDots rest).map (fun q => -q)
  | '+' :: rest => pyFloatDigitsDots rest
  | _ => pyFloatDigitsDots cs

/-- Python `max(l)` guarded by `if l else 0` as the source writes it. -/
def listMaxQ : List ℚ → ℚ
  | [] => 0
  | h :: t => t.foldl max h

/-- Python `min(l)` guarded by `if l else 0` as the source writes it. -/
def listMinQ : List ℚ → ℚ
  | [] => 0
  | h :: t => t.foldl min h

/-- Python `<` on strings: lexicographic comparison by code point. -/
def charListLt : List Char → List Char → Bool
  | [], [] => false
  | [], _ :: _ => true
  | _ :: _, [] => false
  | c :: cs, d :: ds =>
    if c.toNat < d.toNat then true
    else if d.toNat < c.toNat then false
    else charListLt cs ds

/-- Python `a < b` for strings. -/
def strLtb (a b : String) : Bool := charListLt a.toList b.toList

/-- Python `max(l)` over strings, guarded by `if l else ''`. -/
def listMaxS : List String → String
  | [] => ""
  | h :: t => t.foldl (fun a b => if strLtb a b then b else a) h

/-- Python `min(l)` over strings, guarded by `if l else ''`. -/
def listMinS : List String → String
  | [] => ""
  | h :: t => t.foldl (fun a b => if strLtb b a then b else a) h

/-- `sum(l)/len(l) if l else 0`, the mean-of-empty-is-zero pattern. -/
def avgQ (l : List ℚ) : ℚ :=
  if l.isEmpty then 0 else l.sum / (l.length : ℚ)

/-! ## Dates

`process_row` parses `발송일` with `datetime.strptime` against the formats
`%Y-%m-%d`, `%Y.%m.%d`, `%Y/%m/%d`, and derives the weekday (Monday = 0)
via `datetime.weekday()` on the proleptic Gregorian calendar. -/

structure Date where
  year : ℕ
  month : ℕ
  day : ℕ
deriving DecidableEq, Repr

def isLeap (y : ℕ) : Bool :=
  (y % 4 = 0 && y % 100 ≠ 0) || y % 400 = 0

def daysInMonth (y m : ℕ) : ℕ :=
  if m = 2 then (if isLeap y then 29 else 28)
  else if m = 4 || m = 6 || m = 9 || m = 11 then 30
  else 31

/-- Days in the months strictly before month `m` of year `y`. -/
def daysBeforeMonth (y m : ℕ) : ℕ :=
  (List.range (m - 1)).foldl (fun a i => a + daysInMonth y (i + 1)) 0

/-- Rata-die day number of a proleptic Gregorian date (0001-01-01 ↦ 1). -/
def rataDie (d : Date) : ℕ :=
  365 * (d.year - 1) + (d.year - 1) / 4 - (d.year - 1) / 100
    + (d.year - 1) / 400 + daysBeforeMonth d.year d.month + d.day

/-- `datetime.weekday()`: Monday = 0 .. Sunday = 6.  0001-01-01 is a Monday. -/
def pyWeekday (d : Date) : ℕ := (rataDie d + 6) % 7

/-- One `strptime` attempt: `%Y<sep>%m<sep>%d`, requiring exactly four year
digits, one or two month digits in 1..12, one or two day digits in
1..31 and valid for the month (as CPython's `_strptime` plus the
`datetime` constructor enforce). -/
def parseDateFmt (sep : Char) (s : String) : Option Date :=
  match s.toList.splitOn sep with
  | [ys, ms, ds] =>
    if ys.length = 4 && ys.all Char.isDigit
        && 1 ≤ ms.length && ms.length ≤ 2 && ms.all Char.isDigit
        && 1 ≤ ds.length && ds.length ≤ 2 && ds.all Char.isDigit then
      let y := digitsVal ys
      let m := digitsVal ms
      let d := digitsVal ds
      if 1 ≤ m && m ≤ 12 && 1 ≤ d && d ≤ daysInMonth y m then
        some ⟨y, m, d⟩
      else none
    else none
  | _ => none

/-- The `for date_format in [...]` loop of `process_row`: first format that
parses wins. -/
def parseAnyDate (s : String) : Option Date :=
  match parseDateFmt '-' s with
  | some d => some d
  | none =>
    match parseDateFmt '.' s with
    | some d => some d
    | none => parseDateFmt '/' s

/-- Zero-padded decimal rendering of a natural number to width `w`. -/
def padNat (w : ℕ) (n : ℕ) : String :=
  let s := toString n
  ⟨List.replicate (w - s.length) '0'⟩ ++ s

/-- `strftime('%Y-%m-%d')`. -/
def formatDate (d : Date) : String :=
  padNat 4 d.year ++ "-" ++ padNat 2 d.month ++ "-" ++ padNat 2 d.day

/-- `weekdays = ['월', '화', '수', '목', '금', '토', '일']` indexed by
`datetime.weekday()`. -/
def weekdayNames : List String := ["월", "화", "수", "목", "금", "토", "일"]

def weekdayName (n : ℕ) : String := (weekdayNames.get? n).getD ""

/-! ## `upload_analyzer.py`: the `UploadAnalyzer` class -/

namespace UploadAnalyzer

/-- A raw CSV row as produced by `csv.DictReader`: column name ↦ string. -/
abbrev RawRow := List (String × String)

/-- Output of `normalize_fields`: the seven canonical fields, as strings.
Field names romanised: `clickRateStr` = 클릭율, `messageStr` = 발송 문구,
`serviceStr` = 서비스명, `dateStr` = 발송일, `weekdayStr` = 요일,
`sentCountStr` = 발송회원수, `clickCountStr` = 클릭회원수. -/
structure NormalizedRow where
  clickRateStr : String
  messageStr : String
  serviceStr : String
  dateStr : String
  weekdayStr : String
  sentCountStr : String
  clickCountStr : String
deriving DecidableEq, Repr

/-- First alias of the list present in the row wins; otherwise the default. -/
def firstAlias (row : RawRow) (names : List String) (dflt : String) : String :=
  match names with
  | [] => dflt
  | n :: rest =>
    match List.lookup n row with
    | some v => v
    | none => firstAlias row rest dflt

/-- `UploadAnalyzer.normalize_fields`: scan each canonical field's alias
list in order and take the first present key; substitute the documented
default otherwise. -/
def normalize_fields (row : RawRow) : NormalizedRow where
  clickRateStr :=
    firstAlias row ["클릭율", "클릭률", "CTR", "click_rate", "clickrate"] "0"
  messageStr :=
    firstAlias row ["발송 문구", "문구", "message", "내용", "content", "알림내용"]
      "기본 문구"
  serviceStr :=
    firstAlias row ["서비스명", "서비스", "service", "service_name", "상품명"] "기타"
  dateStr :=
    firstAlias row ["발송일", "발송날짜", "date", "send_date", "날짜"] ""
  weekdayStr := firstAlias row ["요일", "weekday", "day"] ""
  sentCountStr := firstAlias row ["발송회원수", "send_count", "발송수"] ""
  clickCountStr := firstAlias row ["클릭회원수", "click_count", "클릭수"] ""

/-- A processed record (the dictionary `process_row` returns).
`dateStr` = 발송일 (the stored `%Y-%m-%d` string), `dateObj` = 발송일_객체. -/
structure Record where
  clickRate : ℚ
  message : String
  service : String
  dateStr : String
  dateObj : Date
  weekday : String
  sentCount : ℤ
  clickCount : ℤ
deriving DecidableEq, Repr

/-- `UploadAnalyzer.safe_int`: `int(float(str(value).replace(',', '')))`
with any failure mapped to `0`. -/
def safe_int (s : String) : ℤ :=
  match pyFloatSigned (((pyStrip s).toList.filter (fun c => c ≠ ','))) with
  | some q => pyTrunc q
  | none => 0

/-- The digit test of `process_row` line 139:
`click_rate_str.replace('.', '').replace('%', '').isdigit()`. -/
def clickRateDigitCheck (s : String) : Bool :=
  let t := s.toList.filter (fun c => c ≠ '.' && c ≠ '%')
  !t.isEmpty && t.all Char.isDigit

/-- The stored click rate (line 141):
`click_rate if click_rate <= 100 else click_rate / 100`. -/
def storeClickRate (v : ℚ) : ℚ := if v ≤ 100 then v else v / 100

/-- Click-rate conversion of `process_row` (lines 138-143).  `none` means
`float()` raised inside the `try` block, so the row is dropped; `some v`
is the stored value. -/
def parseClickRateField (s0 : String) : Option ℚ :=
  let s := pyStrip s0
  if clickRateDigitCheck s then
    match pyFloatDigitsDots (s.toList.filter (fun c => c ≠ '%')) with
    | some v => some (storeClickRate v)
    | none => none
  else
    some 0

/-- `UploadAnalyzer.process_row`.  `now` stands for `datetime.now()`;
`none` models the blanket `except` returning `None` (row rejected). -/
def process_row (now : Date) (nr : NormalizedRow) : Option Record :=
  match parseClickRateField nr.clickRateStr with
  | none => none
  | some rate =>
    let ds := pyStrip nr.dateStr
    let dateObj :=
      if ds = "" then now
      else
        match parseAnyDate ds with
        | some d => d
        | none => now
    let wd := pyStrip nr.weekdayStr
    some
      { clickRate := rate
        message := pyStrip nr.messageStr
        service := pyStrip nr.serviceStr
        dateStr := formatDate dateObj
        dateObj := dateObj
        weekday := if wd = "" then weekdayName (pyWeekday dateObj) else wd
        sentCount := safe_int nr.sentCountStr
        clickCount := safe_int nr.clickCountStr }

/-- The `high_performance_criteria` dictionary (line 220).  The
human-readable `description` string is a formatted display field and is
not modelled. -/
structure Criteria where
  thresholdRate : ℚ
  avgRate : ℚ
  count : ℕ
  topPercent : ℕ
  totalCandidates : ℕ
deriving DecidableEq, Repr

/-- One entry of `aggregate_high_performance_messages`' `message_groups`
dictionary. -/
structure Group where
  message : String
  occurrences : List Record
  totalSends : ℤ
  totalClicks : ℤ
  clickRates : List ℚ
  services : List String
  dates : List String
deriving DecidableEq, Repr

/-- Clicks contributed by one occurrence (lines 443-445):
`int((click_rate / 100) * send_count) if send_count > 0 else 0`. -/
def clicksOf (r : Record) : ℤ :=
  if 0 < r.sentCount then pyTrunc (r.clickRate / 100 * (r.sentCount : ℚ)) else 0

/-- Fresh group for a message text (lines 427-436) updated with its first
occurrence (lines 438-450). -/
def newGroup (text : String) (r : Record) : Group where
  message := text
  occurrences := [r]
  totalSends := r.sentCount
  totalClicks := clicksOf r
  clickRates := [r.clickRate]
  services := [r.service]
  dates := [r.dateStr]

/-- Fold one more occurrence into an existing group (lines 438-450).
Python's `set.add` is modelled as insertion-ordered deduplication (the
iteration order of a Python `set` is unspecified; no claim depends on it). -/
def updateGroup (g : Group) (r : Record) : Group where
  message := g.message
  occurrences := g.occurrences ++ [r]
  totalSends := g.totalSends + r.sentCount
  totalClicks := g.totalClicks + clicksOf r
  clickRates := g.clickRates ++ [r.clickRate]
  services := if g.services.contains r.service then g.services
              else g.services ++ [r.service]
  dates := g.dates ++ [r.dateStr]

/-- Insert one record into the insertion-ordered group list
(the `message_groups` dict keyed by `message_text`). -/
def addToGroups : List Group → Record → List Group
  | [], r => [newGroup (pyStrip r.message) r]
  | g :: gs, r =>
    if g.message = pyStrip r.message then updateGroup g r :: gs
    else g :: addToGroups gs r

/-- One element of `aggregated_results` (lines 465-480). -/
structure MessageAggregate where
  message : String
  sendCount : ℕ
  totalSends : ℤ
  totalClicks : ℤ
  avgClickRate : ℚ
  maxClickRate : ℚ
  minClickRate : ℚ
  totalClickRate : ℚ
  services : List String
  dateFirst : String
  dateLast : String
  occurrences : List Record
deriving DecidableEq, Repr

/-- Lines 452-480: turn a group into its aggregate row. -/
def finalizeGroup (g : Group) : MessageAggregate where
  message := g.message
  sendCount := g.occurrences.length
  totalSends := g.totalSends
  totalClicks := g.totalClicks
  avgClickRate := pyRound2 (avgQ g.clickRates)
  maxClickRate := pyRound2 (listMaxQ g.clickRates)
  minClickRate := pyRound2 (listMinQ g.clickRates)
  totalClickRate :=
    pyRound2 (if 0 < g.totalSends
              then (g.totalClicks : ℚ) / (g.totalSends : ℚ) * 100 else 0)
  services := g.services
  dateFirst := listMinS g.dates
  dateLast := listMaxS g.dates
  occurrences := g.occurrences

/-- `UploadAnalyzer.aggregate_high_performance_messages` applied to a list
of (high-performance) records: group by exact stripped message text, then
aggregate each group and sort by `total_click_rate` descending. -/
def aggregate_high_performance_messages (msgs : List Record) : List MessageAggregate :=
  if msgs.isEmpty then []
  else
    pySorted (fun a b => decide (b.totalClickRate ≤ a.totalClickRate))
      ((msgs.foldl addToGroups []).map finalizeGroup)

/-- A record as serialised for output: the `clean_row` loops drop the
internal `발송일_객체` (`dateObj`) field and keep everything else. -/
structure CleanRecord where
  clickRate : ℚ
  message : String
  service : String
  dateStr : String
  weekday : String
  sentCount : ℤ
  clickCount : ℤ
deriving DecidableEq, Repr

def cleanRecord (r : Record) : CleanRecord where
  clickRate := r.clickRate
  message := r.message
  service := r.service
  dateStr := r.dateStr
  weekday := r.weekday
  sentCount := r.sentCount
  clickCount := r.clickCount

/-- Accumulating entry of `service_analysis` (lines 238-257). -/
structure ServiceAcc where
  messages : List CleanRecord
  totalClicks : ℚ
  count : ℕ
deriving DecidableEq, Repr

/-- Final entry of `service_analysis` after the second pass
(lines 259-273): average computed, messages sorted by click rate
descending and truncated to 5. -/
structure ServiceStats where
  messages : List CleanRecord
  totalClicks : ℚ
  count : ℕ
  avgClickRate : ℚ
deriving DecidableEq, Repr

/-- Add one record to the insertion-ordered `service_analysis` dict. -/
def addServiceRow : List (String × ServiceAcc) → Record → List (String × ServiceAcc)
  | [], r => [(r.service, ⟨[cleanRecord r], r.clickRate, 1⟩)]
  | (k, v) :: rest, r =>
    if k = r.service then
      (k, ⟨v.messages ++ [cleanRecord r], v.totalClicks + r.clickRate, v.count + 1⟩) :: rest
    else
      (k, v) :: addServiceRow rest r

/-- The per-service analysis of `analyze_patterns` (lines 234-273). -/
def mkServiceAnalysis (data : List Record) : List (String × ServiceStats) :=
  (data.foldl addServiceRow []).map fun p =>
    (p.1,
     { messages := ((pySorted
          (fun a b => decide (b.clickRate ≤ a.clickRate)) p.2.messages).take 5)
       totalClicks := p.2.totalClicks
       count := p.2.count
       avgClickRate := if 0 < p.2.count then p.2.totalClicks / (p.2.count : ℚ) else 0 })

/-- The fixed keyword vocabulary of `analyze_patterns` (line 276). -/
def analysisKeywords : List String :=
  ["혜택", "최대", "할인", "금리", "한도", "대출", "비교", "갈아타기", "확인", "신청"]

/-- The per-keyword analysis (lines 275-288): keywords with zero matching
messages are omitted; the stored value is `[avg_rate, count]`. -/
def mkKeywordAnalysis (data : List Record) : List (String × ℚ × ℕ) :=
  analysisKeywords.filterMap fun kw =>
    let matching := data.filter (fun r => strContains r.message kw)
    if matching.isEmpty then none
    else some (kw, avgQ (matching.map Record.clickRate), matching.length)

/-- The per-weekday analysis (lines 290-304): all seven days are present,
empty days get an explicit zero entry. -/
def mkTimeAnalysis (data : List Record) : List (String × ℚ × ℕ) :=
  weekdayNames.map fun day =>
    let dayMsgs := data.filter (fun r => r.weekday = day)
    if dayMsgs.isEmpty then (day, 0, 0)
    else (day, avgQ (dayMsgs.map Record.clickRate), dayMsgs.length)

/-- The `performance_patterns` dictionary (lines 311-318). -/
structure Patterns where
  serviceAnalysis : List (String × ServiceStats)
  keywordAnalysis : List (String × ℚ × ℕ)
  timeAnalysis : List (String × ℚ × ℕ)
  overallAvg : ℚ
  bestClickRate : ℚ
  highPerformanceCriteria : Option Criteria
deriving DecidableEq, Repr

/-- The mutable state of an `UploadAnalyzer` instance.
`performancePatterns = none` models the initial empty dictionary;
`highPerformanceCriteria`/`aggregatedHighPerformance` are `none` while the
corresponding Python attribute is unset (they are created only inside
`analyze_patterns` and are read through `getattr(..., default)`). -/
structure EngineState where
  data : List Record
  highPerformanceMessages : List Record
  performancePatterns : Option Patterns
  analysisComplete : Bool
  highPerformanceCriteria : Option Criteria
  aggregatedHighPerformance : Option (List MessageAggregate)
deriving DecidableEq, Repr

/-- `UploadAnalyzer.__init__`. -/
def freshEngine : EngineState := ⟨[], [], none, false, none, none⟩

/-- `UploadAnalyzer.analyze_patterns`.  The high-performance block
(lines 203-232) runs only when some record has a strictly positive click
rate; otherwise `high_performance_messages`, `high_performance_criteria`
and `aggregated_high_performance` are left as they were.  The patterns
dictionary is always rebuilt, reading the possibly stale criteria through
`getattr` (line 317). -/
def analyze_patterns (s : EngineState) : EngineState :=
  let posRates := (s.data.filter (fun r => decide (0 < r.clickRate))).map Record.clickRate
  let s1 :=
    if posRates.isEmpty then s
    else
      let avgRate := posRates.sum / (posRates.length : ℚ)
      let thr := max (avgRate * 1.2) 8
      let sortedData := pySorted (fun a b => decide (b.clickRate ≤ a.clickRate)) s.data
      let top20 := max (sortedData.length / 5) 10
      let hpm := (sortedData.take top20).filter (fun r => decide (thr ≤ r.clickRate))
      { s with
          highPerformanceMessages := hpm
          highPerformanceCriteria := some ⟨thr, avgRate, hpm.length, 20, top20⟩
          aggregatedHighPerformance := some (aggregate_high_performance_messages hpm) }
  let patterns : Patterns :=
    { serviceAnalysis := mkServiceAnalysis s1.data
      keywordAnalysis := mkKeywordAnalysis s1.data
      timeAnalysis := mkTimeAnalysis s1.data
      overallAvg := avgQ (s1.data.map Record.clickRate)
      bestClickRate := listMaxQ (s1.data.map Record.clickRate)
      highPerformanceCriteria := s1.highPerformanceCriteria }
  { s1 with performancePatterns := some patterns }

/-- The dictionary returned by `UploadAnalyzer.get_summary`. -/
structure Summary where
  totalMessages : ℕ
  avgClickRate : ℚ
  maxClickRate : ℚ
  minClickRate : ℚ
  highPerformanceCount : ℕ
  servicesCount : ℕ
deriving DecidableEq, Repr

/-- `UploadAnalyzer.get_summary`; `none` models the early `return {}`. -/
def get_summary (s : EngineState) : Option Summary :=
  if s.data.isEmpty then none
  else
    let rates := s.data.map Record.clickRate
    some
      { totalMessages := s.data.length
        avgClickRate := avgQ rates
        maxClickRate := listMaxQ rates
        minClickRate := listMinQ rates
        highPerformanceCount := s.highPerformanceMessages.length
        servicesCount := (s.data.map Record.service).dedup.length }

/-- The success payload of `analyze_uploaded_csv`. -/
structure IngestOk where
  totalMessages : ℕ
  highPerformanceCount : ℕ
  summary : Option Summary
deriving DecidableEq, Repr

/-- `UploadAnalyzer.analyze_uploaded_csv` from the `DictReader` rows on:
clear all four state fields (lines 34-37), normalise and process each row
keeping the successes, raise (here: return `none`) when no row survived
(line 74-75), otherwise run `analyze_patterns` and mark the analysis
complete.  CSV text decoding itself is plumbing and is not modelled. -/
def analyze_uploaded_csv (now : Date) (s : EngineState) (rows : List RawRow) :
    EngineState × Option IngestOk :=
  let cleared : EngineState :=
    { s with data := [], highPerformanceMessages := []
             performancePatterns := none, analysisComplete := false }
  let recs := rows.filterMap (fun row => process_row now (normalize_fields row))
  if recs.isEmpty then (cleared, none)
  else
    let s1 := analyze_patterns { cleared with data := recs }
    let s2 := { s1 with analysisComplete := true }
    (s2, some ⟨s2.data.length, s2.highPerformanceMessages.length, get_summary s2⟩)

/-- Per-service entry of the dashboard payload (lines 356-378). -/
structure CleanServiceStats where
  count : ℕ
  avgClickRate : ℚ
  messages : List CleanRecord
deriving DecidableEq, Repr

/-- The dashboard payload (lines 380-396). -/
structure Dashboard where
  totalMessages : ℕ
  avgClickRate : ℚ
  bestClickRate : ℚ
  highPerformanceCount : ℕ
  highPerformanceCriteria : Option Criteria
  serviceAnalysis : List (String × CleanServiceStats)
  keywordAnalysis : List (String × ℚ × ℕ)
  timeAnalysis : List (String × ℚ × ℕ)
  highPerformanceMessages : List CleanRecord
  aggregatedHighPerformance : List MessageAggregate
deriving DecidableEq, Repr

/-- `UploadAnalyzer.get_dashboard_data`: `none` models the
`analysis_complete == False` error return (lines 333-337). -/
def get_dashboard_data (s : EngineState) : Option Dashboard :=
  if !s.analysisComplete then none
  else
    some
      { totalMessages := s.data.length
        avgClickRate := ((s.performancePatterns.map Patterns.overallAvg).getD 0)
        bestClickRate := ((s.performancePatterns.map Patterns.bestClickRate).getD 0)
        highPerformanceCount := s.highPerformanceMessages.length
        highPerformanceCriteria :=
          ((s.performancePatterns.map Patterns.highPerformanceCriteria).getD none)
        serviceAnalysis :=
          ((s.performancePatterns.map Patterns.serviceAnalysis).getD []).map
            (fun p => (p.1, ⟨p.2.count, p.2.avgClickRate, p.2.messages⟩))
        keywordAnalysis := (s.performancePatterns.map Patterns.keywordAnalysis).getD []
        timeAnalysis := (s.performancePatterns.map Patterns.timeAnalysis).getD []
        highPerformanceMessages := (s.highPerformanceMessages.take 10).map cleanRecord
        aggregatedHighPerformance := s.aggregatedHighPerformance.getD [] }

end UploadAnalyzer

/-! ## `message_ai_generator.py`: the `MessageAIGenerator` class -/

namespace MessageAIGenerator

/-- The character class of the emoji regex in `extract_message_features`
(line 68), listed code point by code point as a regex character class is
matched.  `🙋‍♂️` contributes four code points: `🙋`, ZERO WIDTH JOINER,
`♂` and VARIATION SELECTOR-16. -/
def emojiChars : List Char :=
  ['🎉', '💰', '👉', '🏠', '💸', '🎁', '📣', '💌', '🚘', '⚡', '🔔', '🚨',
   '💎', '🔥', '📢', '🎯', '🙋', Char.ofNat 0x200D, '♂', Char.ofNat 0xFE0F]

/-- First tier of a priority-ordered keyword-tier table whose keyword list
has a substring hit; `"none"` when no tier matches. -/
def tierMatch (tiers : List (String × List String)) (message : String) : String :=
  match tiers with
  | [] => "none"
  | (level, kws) :: rest =>
    if kws.any (fun kw => strContains message kw) then level
    else tierMatch rest message

/-- `MessageAIGenerator.calculate_urgency_level`. -/
def calculate_urgency_level (message : String) : String :=
  tierMatch
    [("high", ["오늘만", "마감임박", "한정", "긴급", "서둘러", "마지막", "지금 바로", "놓치면"]),
     ("medium", ["곧", "빠른", "시간이", "기회", "타이밍"]),
     ("low", ["언제든", "천천히", "확인"])]
    message

/-- `MessageAIGenerator.calculate_benefit_level`. -/
def calculate_benefit_level (message : String) : String :=
  tierMatch
    [("high", ["최대", "최저", "특가", "혜택", "할인", "무료", "적립", "포인트"]),
     ("medium", ["좋은", "더", "절약", "이득"]),
     ("low", ["안내", "정보", "확인"])]
    message

/-- The display keyword vocabulary of `extract_keywords` (lines 110-112). -/
def allKeywords : List String :=
  ["금리", "한도", "대출", "비교", "우대", "혜택", "포인트", "할인", "지원",
   "최대", "최저", "특가", "한정", "신용", "주택", "전월세", "갈아타기",
   "조회", "확인", "신청", "승인", "이자", "캐피탈", "은행"]

/-- `MessageAIGenerator.extract_keywords`. -/
def extract_keywords (message : String) : List String :=
  allKeywords.filter (fun kw => strContains message kw)

/-- `MessageAIGenerator.classify_tone`. -/
def classify_tone (message : String) : String :=
  if ["축하", "🎉", "혜택", "특가", "기회"].any (fun w => strContains message w) then
    "promotional"
  else if ["긴급", "마감", "서둘러", "오늘만"].any (fun w => strContains message w) then
    "urgent"
  else if ["확인", "정보", "안내", "조회"].any (fun w => strContains message w) then
    "informational"
  else if ["고민", "부담", "어려움"].any (fun w => strContains message w) then
    "empathetic"
  else "neutral"

/-- `MessageAIGenerator.extract_cta`. -/
def extract_cta (message : String) : String :=
  let ctas := ["확인하기", "신청하기", "비교하기", "받기", "받아보세요",
               "클릭", "터치", "눌러", "바로", "지금"]
  match ctas.find? (fun c => strContains message c) with
  | some c => c
  | none => "none"

/-- The feature dictionary of `extract_message_features`. -/
structure Features where
  length : ℕ
  hasEmoji : Bool
  hasNumbers : Bool
  hasBrackets : Bool
  hasExclamation : Bool
  hasQuestion : Bool
  hasArrow : Bool
  urgencyLevel : String
  benefitLevel : String
  keywords : List String
  tone : String
  callToAction : String
deriving DecidableEq, Repr

/-- `MessageAIGenerator.extract_message_features`. -/
def extract_message_features (message : String) : Features where
  length := message.length
  hasEmoji := message.toList.any (fun c => emojiChars.contains c)
  hasNumbers := message.toList.any Char.isDigit
  hasBrackets := strContains message "(" || strContains message "["
  hasExclamation := strContains message "!"
  hasQuestion := strContains message "?"
  hasArrow := strContains message "👉" || strContains message ">"
  urgencyLevel := calculate_urgency_level message
  benefitLevel := calculate_benefit_level message
  keywords := extract_keywords message
  tone := classify_tone message
  callToAction := extract_cta message

/-- `high_perf_keywords` of `predict_performance` (line 456). -/
def highPerfKeywords : List String := ["혜택", "최대", "할인"]

/-- `MessageAIGenerator.predict_performance`, reduced to the
`predicted_click_rate` value it returns (`round(predicted_rate, 1)`).
The constant `confidence` field and the display-only `factors` strings of
the returned dictionary are not modelled. -/
def predict_performance (message : String) : ℚ :=
  let features := extract_message_features message
  let baseScore : ℚ := 8.5
  let keywordBonus : ℚ :=
    2 * ((features.keywords.filter (fun k => highPerfKeywords.contains k)).length : ℚ)
  let emojiPenalty : ℚ := if features.hasEmoji then -2 else 0
  let lengthScore : ℚ :=
    if 30 ≤ features.length && features.length ≤ 50 then 1
    else if 60 < features.length then -1
    else 0
  let urgencyBonus : ℚ := if features.urgencyLevel = "high" then 1 else 0
  pyRound1 (max 3 (min 20
    (baseScore + keywordBonus + emojiPenalty + lengthScore + urgencyBonus)))

/-- One entry of a `message_patterns` bucket: the feature dictionary plus
the three fields `analyze_message_patterns` adds. -/
structure MsgPattern where
  features : Features
  originalMessage : String
  clickRate : ℚ
  service : String
deriving DecidableEq, Repr

/-- `message_patterns`: service name ↦ its patterns, in insertion order. -/
abbrev PatternStore := List (String × List MsgPattern)

/-- Add one data row to `message_patterns`
(`analyze_message_patterns`, lines 48-62). -/
def addPattern (svc msg : String) (rate : ℚ) :
    List (String × List MsgPattern) → List (String × List MsgPattern)
  | [] => [(svc, [⟨extract_message_features msg, msg, rate, svc⟩])]
  | (k, ps) :: rest =>
    if k = svc then (k, ps ++ [⟨extract_message_features msg, msg, rate, svc⟩]) :: rest
    else (k, ps) :: addPattern svc msg rate rest

/-- `MessageAIGenerator.analyze_message_patterns` over typed
`(service, message, clickRate)` rows. -/
def analyze_message_patterns (rows : List (String × String × ℚ)) : PatternStore :=
  rows.foldl (fun acc row => addPattern row.1 row.2.1 row.2.2 acc) []

/-- A match request (`user_input`), with the `dict.get` defaults of
`find_matching_messages` / `calculate_match_score` /
`explain_match_reasons` applied: missing `keywords` is `[]`, missing
`urgency` and `benefit_level` are `"none"`, missing `service`,
`target_audience` and `description` are `""`; `tone` has no default
(`user_input.get('tone')` is `None` when absent). -/
structure UserInput where
  targetAudience : String
  keywords : List String
  tone : Option String
  service : String
  urgency : String
  benefitLevel : String
  description : String
deriving DecidableEq, Repr

/-- `MessageAIGenerator.calculate_match_score` (lines 216-242). -/
def calculate_match_score (p : MsgPattern) (u : UserInput) : ℚ :=
  let s1 : ℚ :=
    if u.keywords.isEmpty then 0
    else ((p.features.keywords.dedup.filter (fun k => u.keywords.contains k)).length : ℚ)
           * 0.3
  let s2 := if u.tone = some p.features.tone then s1 + 0.4 else s1
  let s3 := if u.urgency = p.features.urgencyLevel then s2 + 0.2 else s2
  let s4 := if u.benefitLevel = p.features.benefitLevel then s3 + 0.2 else s3
  let s5 := if 10 < p.clickRate then s4 + 0.1 else s4
  min s5 1

/-- A structured match reason.  The source renders these as Korean display
strings (with `', '.join` over a Python set and `:.1f` float formatting);
only the structure is modelled, not the rendering. -/
inductive MatchReason where
  | keywordMatch (kws : List String)
  | toneMatch (desc : String)
  | highPerformance (rate : ℚ)
  | urgencyReflected
  | benefitReflected
  | genericPattern
deriving DecidableEq, Repr

/-- `tone_patterns[tone]['description']` with the fallback to the tone
label itself (line 256). -/
def toneDescription (tone : String) : String :=
  if tone = "promotional" then "혜택 강조형"
  else if tone = "urgent" then "긴급성 강조형"
  else if tone = "informational" then "정보 제공형"
  else if tone = "empathetic" then "공감형"
  else tone

/-- `MessageAIGenerator.explain_match_reasons` (lines 244-270). -/
def explain_match_reasons (p : MsgPattern) (u : UserInput) : List MatchReason :=
  let matchedKws := p.features.keywords.dedup.filter (fun k => u.keywords.contains k)
  let r1 : List MatchReason :=
    if matchedKws.isEmpty then [] else [.keywordMatch matchedKws]
  let r2 :=
    if u.tone = some p.features.tone then
      r1 ++ [.toneMatch (toneDescription p.features.tone)]
    else r1
  let r3 := if 10 < p.clickRate then r2 ++ [.highPerformance p.clickRate] else r2
  let r4 :=
    if p.features.urgencyLevel = "high" && strContains u.description "긴급" then
      r3 ++ [.urgencyReflected]
    else r3
  let r5 :=
    if p.features.benefitLevel = "high" && strContains u.description "혜택" then
      r4 ++ [.benefitReflected]
    else r4
  if r5.isEmpty then [.genericPattern] else r5

/-- One element of the list `find_matching_messages` returns. -/
structure MatchResult where
  message : String
  score : ℚ
  clickRate : ℚ
  service : String
  reasons : List MatchReason
deriving DecidableEq, Repr

/-- The descending `(score, click_rate)` tuple order of line 213
(`a` may precede `b`). -/
def matchOrder (a b : MatchResult) : Bool :=
  if a.score = b.score then decide (b.clickRate ≤ a.clickRate)
  else decide (b.score ≤ a.score)

/-- `MessageAIGenerator.find_matching_messages` (lines 187-214): skip
services not containing the requested service substring (when one is
given), keep patterns scoring strictly above `0.3`, sort by
`(score, click_rate)` descending, return the first five. -/
def find_matching_messages (store : PatternStore) (u : UserInput) : List MatchResult :=
  let found : List MatchResult :=
    store.flatMap fun svc =>
      if u.service ≠ "" && !(strContains svc.1 u.service) then []
      else
        svc.2.filterMap fun p =>
          if (0.3 : ℚ) < calculate_match_score p u then
            some ⟨p.originalMessage, calculate_match_score p u, p.clickRate, p.service,
                  explain_match_reasons p u⟩
          else none
  (pySorted matchOrder found).take 5

end MessageAIGenerator

/-! ## Shared lemmas -/

theorem roundHalfEven_intCast (n : ℤ) : roundHalfEven (n : ℚ) = n := by
  unfold roundHalfEven
  simp only [Int.floor_intCast, sub_self]
  norm_num

theorem pyRound1_eq_self (q : ℚ) (h : ∃ n : ℤ, q * 10 = (n : ℚ)) :
    pyRound1 q = q := by
  obtain ⟨n, hn⟩ := h
  unfold pyRound1
  rw [hn, roundHalfEven_intCast, ← hn]
  ring

/-! ## Claims -/

namespace Claims

open UploadAnalyzer MessageAIGenerator

/-- C2, counterexample.  The click-rate string `"20000"` is a valid
non-negative decimal input; it parses, the stored value is `200`, and
`200 > 100`: the stored click rate is not always `≤ 100`. -/
theorem c2_counterexample :
    parseClickRateField "20000" = some 200 ∧ ¬ ((200 : ℚ) ≤ 100) := by
  constructor
  · decide
  · norm_num

/-- C2, amended: for every parsed click-rate value `v > 100` the stored
value is `v / 100`; the stored value is `≤ 100` whenever the parsed value
is `≤ 10000` (the rescaling is applied once and not re-checked, so parsed
values above `10000` store values above `100`). -/
theorem c2_rescale (v : ℚ) :
    (100 < v → storeClickRate v = v / 100) ∧
    (v ≤ 10000 → storeClickRate v ≤ 100) := by
  unfold storeClickRate
  constructor
  · intro h
    rw [if_neg (by linarith)]
  · intro h
    split
    · linarith
    · rw [div_le_iff₀ (by norm_num : (0:ℚ) < 100)]
      linarith

/-- Witness for `c2_rescale` at the parsed values `20000` and `50`. -/
theorem c2_rescale_witness :
    storeClickRate 20000 = 20000 / 100 ∧ storeClickRate 50 ≤ 100 :=
  ⟨(c2_rescale 20000).1 (by norm_num), (c2_rescale 50).2 (by norm_num)⟩

/-- C6: for every message text, the predicted rate equals
`clamp(8.5 + 2*|extracted keywords ∩ {혜택, 최대, 할인}| + emojiPenalty
+ lengthScore + urgencyBonus, 3, 20)`, and in particular always lies in
`[3, 20]`. -/
theorem c6_predict_formula (msg : String) :
    predict_performance msg =
      max 3 (min 20
        ((8.5 : ℚ)
          + 2 * (((extract_message_features msg).keywords.filter
                (fun k => highPerfKeywords.contains k)).length : ℚ)
          + (if (extract_message_features msg).hasEmoji then -2 else 0)
          + (if 30 ≤ (extract_message_features msg).length
                && (extract_message_features msg).length ≤ 50 then 1
             else if 60 < (extract_message_features msg).length then -1 else 0)
          + (if (extract_message_features msg).urgencyLevel = "high" then 1 else 0)))
    ∧ 3 ≤ predict_performance msg ∧ predict_performance msg ≤ 20 := by
  have hx : ∀ q : ℚ, (∃ m : ℤ, q * 10 = (m : ℚ)) →
      pyRound1 (max 3 (min 20 q)) = max 3 (min 20 q) ∧
      (3:ℚ) ≤ pyRound1 (max 3 (min 20 q)) ∧ pyRound1 (max 3 (min 20 q)) ≤ 20 := by
    rintro q ⟨m, hm⟩
    have he : pyRound1 (max 3 (min 20 q)) = max 3 (min 20 q) := by
      apply pyRound1_eq_self
      rcases max_cases (3:ℚ) (min 20 q) with ⟨h1, _⟩ | ⟨h1, _⟩
      · exact ⟨30, by rw [h1]; norm_num⟩
      · rcases min_cases (20:ℚ) q with ⟨h2, _⟩ | ⟨h2, _⟩
        · exact ⟨200, by rw [h1, h2]; norm_num⟩
        · exact ⟨m, by rw [h1, h2, hm]⟩
    refine ⟨he, ?_, ?_⟩ <;> rw [he]
    · exact le_max_left _ _
    · exact max_le (by norm_num) (min_le_left _ _)
  simp only [predict_performance]
  apply hx
  exact ⟨85
    + 20 * (((extract_message_features msg).keywords.filter
        (fun k => highPerfKeywords.contains k)).length : ℤ)
    + (if (extract_message_features msg).hasEmoji then -20 else 0)
    + (if 30 ≤ (extract_message_features msg).length
          && (extract_message_features msg).length ≤ 50 then 10
       else if 60 < (extract_message_features msg).length then -10 else 0)
    + (if (extract_message_features msg).urgencyLevel = "high" then 10 else 0),
    by split_ifs <;> push_cast <;> norm_num <;> ring⟩

/-- A sample ingestion timestamp for concrete runs (`datetime.now()`). -/
def now0 : Date := ⟨2025, 10, 12⟩

/-- A normalised row whose non-click-rate fields are all well formed,
parameterised by the click-rate string. -/
def nrWith (crs : String) : NormalizedRow :=
  ⟨crs, "메시지", "서비스", "2025-01-06", "월", "100", "10"⟩

/-- Rows whose click-rate string fails the digit check are stored with
click rate `0`, never rejected (the `else` branch of lines 138-143). -/
theorem process_row_noDigit (now : Date) (nr : NormalizedRow)
    (h : clickRateDigitCheck (pyStrip nr.clickRateStr) = false) :
    ∃ rec, process_row now nr = some rec ∧ rec.clickRate = 0 := by
  have hp : parseClickRateField nr.clickRateStr = some 0 := by
    unfold parseClickRateField
    simp [h]
  unfold process_row
  rw [hp]
  exact ⟨_, rfl, rfl⟩

/-- All-unparseable-rate datasets are accepted in full, with every stored
rate equal to `0`. -/
theorem filterMap_noDigit (now : Date) (rows : List RawRow)
    (h : ∀ row ∈ rows,
      clickRateDigitCheck (pyStrip (normalize_fields row).clickRateStr) = false) :
    (rows.filterMap (fun row => process_row now (normalize_fields row))).length
        = rows.length ∧
    ∀ r ∈ rows.filterMap (fun row => process_row now (normalize_fields row)),
      r.clickRate = 0 := by
  induction rows with
  | nil => simp
  | cons a t ih =>
    obtain ⟨rec, hrec, hrate⟩ :=
      process_row_noDigit now (normalize_fields a) (h a (List.mem_cons_self a t))
    obtain ⟨hl, hz⟩ := ih (fun row hr => h row (List.mem_cons_of_mem _ hr))
    refine ⟨?_, ?_⟩
    · simp [List.filterMap_cons, hrec, hl]
    · intro r hr
      rw [List.filterMap_cons, hrec] at hr
      rcases List.mem_cons.mp hr with h1 | h1
      · rw [h1]; exact hrate
      · exact hz r h1

theorem avgQ_zero (l : List ℚ) (h : ∀ x ∈ l, x = 0) : avgQ l = 0 := by
  unfold avgQ
  rw [List.sum_eq_zero h]
  simp

/-- C7, counterexample.  The click-rate string `"1.2.3"` is not a valid
non-negative decimal (also after a `%` strip), yet the row is rejected —
`float()` raises inside `process_row` — instead of being stored with
click rate `0.0`; the same row with `"abc"` is accepted with rate `0`. -/
theorem c7_counterexample :
    parseClickRateField "1.2.3" = none ∧
    process_row now0 (nrWith "1.2.3") = none ∧
    (process_row now0 (nrWith "abc")).map Record.clickRate = some 0 := by
  decide

/-- C7, amended: a row whose click-rate string fails the source's digit
check (all characters digits after removing every `.` and `%`, nonempty)
is stored with click rate `0.0` and never rejected; a dataset whose every
row has such a click-rate string (e.g. `"abc"`) is accepted in full with
overall average click rate `0.0`.  (Rows passing the digit check whose
remaining string is still not a valid decimal — e.g. `"1.2.3"` — are
rejected instead.) -/
theorem c7_unparseable_defaults :
    (∀ (now : Date) (nr : NormalizedRow),
        clickRateDigitCheck (pyStrip nr.clickRateStr) = false →
        ∃ rec, process_row now nr = some rec ∧ rec.clickRate = 0) ∧
    (∀ (now : Date) (s : EngineState) (rows : List RawRow),
        rows ≠ [] →
        (∀ row ∈ rows,
          clickRateDigitCheck (pyStrip (normalize_fields row).clickRateStr) = false) →
        (analyze_uploaded_csv now s rows).1.data.length = rows.length ∧
        ((analyze_uploaded_csv now s rows).2).isSome = true ∧
        ((analyze_uploaded_csv now s rows).1.performancePatterns.map
            Patterns.overallAvg) = some 0) := by
  refine ⟨process_row_noDigit, ?_⟩
  intro now s rows hne h
  obtain ⟨hlen, hzero⟩ := filterMap_noDigit now rows h
  set recs := rows.filterMap (fun row => process_row now (normalize_fields row)) with hrecs
  have hrne0 : recs ≠ [] := by
    intro h0
    apply hne
    rw [h0] at hlen
    exact List.length_eq_zero.mp hlen.symm
  have hrne : recs.isEmpty = false := by
    cases hc : recs with
    | nil => exact absurd hc hrne0
    | cons a t => rfl
  have hfilter : (recs.filter (fun r => decide (0 < r.clickRate))) = [] := by
    rw [List.filter_eq_nil_iff]
    intro r hr
    rw [hzero r hr]
    simp
  have havg : avgQ (recs.map Record.clickRate) = 0 := by
    apply avgQ_zero
    intro x hx
    obtain ⟨r, hr, hxr⟩ := List.mem_map.mp hx
    rw [← hxr]
    exact hzero r hr
  simp only [analyze_uploaded_csv, analyze_patterns]
  rw [← hrecs, hrne]
  simp only [Bool.false_eq_true, if_false, hfilter]
  simp [hlen, havg]

/-- Witness for `c7_unparseable_defaults`: the row-level part at the
`"abc"` row, the dataset-level part at a one-row all-`"abc"` dataset. -/
theorem c7_unparseable_defaults_witness :
    (∃ rec, process_row now0 (nrWith "abc") = some rec ∧ rec.clickRate = 0) ∧
    ((analyze_uploaded_csv now0 freshEngine [[("클릭율", "abc")]]).1.data.length = 1 ∧
     ((analyze_uploaded_csv now0 freshEngine [[("클릭율", "abc")]]).2).isSome = true ∧
     ((analyze_uploaded_csv now0 freshEngine
         [[("클릭율", "abc")]]).1.performancePatterns.map Patterns.overallAvg)
       = some 0) :=
  ⟨c7_unparseable_defaults.1 now0 (nrWith "abc") (by decide),
   c7_unparseable_defaults.2 now0 freshEngine [[("클릭율", "abc")]]
     (by decide) (by decide)⟩

/-! ### C4: duplicate-message aggregation -/

/-- Bookkeeping invariant of one `message_groups` entry: the running
totals are the sums over the recorded occurrences, and every occurrence
carries the group's (stripped) message text. -/
def groupSound (g : Group) : Prop :=
  g.totalClicks = (g.occurrences.map clicksOf).sum ∧
  g.totalSends = (g.occurrences.map Record.sentCount).sum ∧
  g.clickRates = g.occurrences.map Record.clickRate ∧
  ∀ r ∈ g.occurrences, pyStrip r.message = g.message

theorem newGroup_sound (r : Record) : groupSound (newGroup (pyStrip r.message) r) := by
  refine ⟨by simp [newGroup], by simp [newGroup], by simp [newGroup], ?_⟩
  intro x hx
  rw [List.mem_singleton.mp hx]
  rfl

theorem updateGroup_sound (g : Group) (r : Record) (hg : groupSound g)
    (hm : g.message = pyStrip r.message) : groupSound (updateGroup g r) := by
  obtain ⟨h1, h2, h3, h4⟩ := hg
  refine ⟨?_, ?_, ?_, ?_⟩
  · simp [updateGroup, h1]
  · simp [updateGroup, h2]
  · simp [updateGroup, h3]
  · intro x hx
    simp only [updateGroup] at hx ⊢
    rcases List.mem_append.mp hx with h | h
    · exact h4 x h
    · rw [List.mem_singleton.mp h, ← hm]

theorem addToGroups_sound (gs : List Group) (r : Record)
    (h : ∀ g ∈ gs, groupSound g) : ∀ g ∈ addToGroups gs r, groupSound g := by
  induction gs with
  | nil =>
    intro g hg
    rw [List.mem_singleton.mp hg]
    exact newGroup_sound r
  | cons g0 gs ih =>
    intro g hg
    unfold addToGroups at hg
    split at hg
    · rcases List.mem_cons.mp hg with h1 | h1
      · rw [h1]
        exact updateGroup_sound g0 r (h g0 (List.mem_cons_self _ _)) (by assumption)
      · exact h g (List.mem_cons_of_mem _ h1)
    · rcases List.mem_cons.mp hg with h1 | h1
      · rw [h1]
        exact h g0 (List.mem_cons_self _ _)
      · exact ih (fun g hg => h g (List.mem_cons_of_mem _ hg)) g h1

theorem foldl_addToGroups_sound (msgs : List Record) :
    ∀ gs, (∀ g ∈ gs, groupSound g) →
      ∀ g ∈ msgs.foldl addToGroups gs, groupSound g := by
  induction msgs with
  | nil => intro gs h; simpa using h
  | cons m t ih =>
    intro gs h
    exact ih (addToGroups gs m) (addToGroups_sound gs m h)

/-- C4, counterexample.  For a single high-performance occurrence with
rate `7` and sent count `10`, the code's `int()` truncation contributes
`int(0.7) = 0` clicks and a `totalClickRate` of `0`, whereas the claim's
`round(0.7) = 1` would give `1/10*100 = 10`. -/
theorem c4_counterexample :
    (aggregate_high_performance_messages
        [⟨7, "동일 문구", "서비스", "2025-01-06", ⟨2025, 1, 6⟩, "월", 10, 0⟩]).map
        (fun a => (a.totalClicks, a.totalClickRate)) = [(0, 0)] ∧
    roundHalfEven ((7 : ℚ) / 100 * 10) = 1 ∧
    ((1 : ℚ) / 10 * 100) = 10 ∧ (0 : ℚ) ≠ 10 := by
  decide

/-- C4, amended: in the duplicate-message aggregation each occurrence
contributes `int((rate/100)*sentCount)` clicks — truncation, not
`round` — when its sent count is positive and `0` otherwise;
`totalClicks`/`totalSends` are the sums of those contributions, and
`totalClickRate` is `totalClicks/totalSends*100` (0 when `totalSends ≤ 0`)
rounded to two decimals. -/
theorem c4_aggregate_arithmetic (msgs : List Record) :
    ∀ a ∈ aggregate_high_performance_messages msgs,
      a.totalClicks = (a.occurrences.map clicksOf).sum ∧
      a.totalSends = (a.occurrences.map Record.sentCount).sum ∧
      a.sendCount = a.occurrences.length ∧
      a.avgClickRate = pyRound2 (avgQ (a.occurrences.map Record.clickRate)) ∧
      a.totalClickRate = pyRound2 (if 0 < a.totalSends
          then (a.totalClicks : ℚ) / (a.totalSends : ℚ) * 100 else 0) ∧
      ∀ r ∈ a.occurrences, pyStrip r.message = a.message := by
  intro a ha
  unfold aggregate_high_performance_messages at ha
  split at ha
  · simp at ha
  · rw [mem_pySorted] at ha
    obtain ⟨g, hg, hfin⟩ := List.mem_map.mp ha
    obtain ⟨h1, h2, h3, h4⟩ :=
      foldl_addToGroups_sound msgs [] (by simp) g hg
    subst hfin
    refine ⟨by simpa [finalizeGroup] using h1, by simpa [finalizeGroup] using h2,
      by simp [finalizeGroup], ?_, ?_, by simpa [finalizeGroup] using h4⟩
    · simp [finalizeGroup, h3]
    · simp [finalizeGroup]

/-- Witness for `c4_aggregate_arithmetic`: a message occurring twice
(rates `10` and `20`, sent counts `15` and `5`). -/
theorem c4_aggregate_arithmetic_witness :
    (⟨"동일 문구", 2, 20, 2, 15, 20, 10, 10, ["서비스"], "2025-01-06", "2025-01-06",
        [⟨10, "동일 문구", "서비스", "2025-01-06", ⟨2025, 1, 6⟩, "월", 15, 0⟩,
         ⟨20, "동일 문구", "서비스", "2025-01-06", ⟨2025, 1, 6⟩, "월", 5, 0⟩]⟩ :
      MessageAggregate).totalClicks =
      (([⟨10, "동일 문구", "서비스", "2025-01-06", ⟨2025, 1, 6⟩, "월", 15, 0⟩,
         ⟨20, "동일 문구", "서비스", "2025-01-06", ⟨2025, 1, 6⟩, "월", 5, 0⟩] :
        List Record).map clicksOf).sum :=
  (c4_aggregate_arithmetic
    [⟨10, "동일 문구", "서비스", "2025-01-06", ⟨2025, 1, 6⟩, "월", 15, 0⟩,
     ⟨20, "동일 문구", "서비스", "2025-01-06", ⟨2025, 1, 6⟩, "월", 5, 0⟩]
    ⟨"동일 문구", 2, 20, 2, 15, 20, 10, 10, ["서비스"], "2025-01-06", "2025-01-06",
      [⟨10, "동일 문구", "서비스", "2025-01-06", ⟨2025, 1, 6⟩, "월", 15, 0⟩,
       ⟨20, "동일 문구", "서비스", "2025-01-06", ⟨2025, 1, 6⟩, "월", 5, 0⟩]⟩
    (by decide)).1

/-! ### C5 / C10: the high-performance subset -/

/-- `analyze_patterns` on a state whose high-performance list was cleared:
every selected record clears the stored threshold, and the selection is no
larger than the top-20%/minimum-10 candidate pool. -/
theorem analyze_patterns_hpm_sound (s : EngineState)
    (hbase : s.highPerformanceMessages = []) :
    (∀ r ∈ (analyze_patterns s).highPerformanceMessages,
        ∃ c, (analyze_patterns s).highPerformanceCriteria = some c ∧
          c.thresholdRate ≤ r.clickRate) ∧
    (analyze_patterns s).highPerformanceMessages.length ≤
      max ((analyze_patterns s).data.length / 5) 10 := by
  simp only [analyze_patterns]
  split
  · simp [hbase]
  · constructor
    · intro r hr
      refine ⟨_, rfl, ?_⟩
      have := List.of_mem_filter hr
      simpa using this
    · simp only []
      calc (List.filter _ (List.take _ _)).length
          ≤ (List.take (max ((pySorted (fun a b => decide (b.clickRate ≤ a.clickRate)) s.data).length / 5) 10) (pySorted (fun a b => decide (b.clickRate ≤ a.clickRate)) s.data)).length :=
            List.length_filter_le _ _
        _ ≤ max ((pySorted (fun a b => decide (b.clickRate ≤ a.clickRate)) s.data).length / 5) 10 := by
            rw [List.length_take]
            exact min_le_left _ _
        _ = max (s.data.length / 5) 10 := by rw [length_pySorted]

/-- C5: after any ingestion, every record of the high-performance set has
a click rate at least the stored threshold, and the set holds at most
`max(|records| // 5, 10)` records. -/
theorem c5_highperf_invariant (now : Date) (s : EngineState) (rows : List RawRow) :
    (∀ r ∈ (analyze_uploaded_csv now s rows).1.highPerformanceMessages,
        ∃ c, (analyze_uploaded_csv now s rows).1.highPerformanceCriteria = some c ∧
          c.thresholdRate ≤ r.clickRate) ∧
    (analyze_uploaded_csv now s rows).1.highPerformanceMessages.length ≤
      max ((analyze_uploaded_csv now s rows).1.data.length / 5) 10 := by
  simp only [analyze_uploaded_csv]
  split
  · simp
  · have := analyze_patterns_hpm_sound
      { data := rows.filterMap (fun row => process_row now (normalize_fields row))
        highPerformanceMessages := []
        performancePatterns := none
        analysisComplete := false
        highPerformanceCriteria := s.highPerformanceCriteria
        aggregatedHighPerformance := s.aggregatedHighPerformance } rfl
    simpa using this

/-- A sample raw row with click rate `20`. -/
def rowW1 : RawRow :=
  [("클릭율", "20"), ("발송 문구", "혜택 메시지"), ("서비스명", "신용대출"),
   ("발송일", "2025-01-06"), ("요일", "월"), ("발송회원수", "100"), ("클릭회원수", "20")]

/-- A sample raw row with click rate `5`. -/
def rowW2 : RawRow :=
  [("클릭율", "5"), ("발송 문구", "기타 메시지"), ("서비스명", "주택담보"),
   ("발송일", "2025-01-07"), ("요일", "화"), ("발송회원수", "50"), ("클릭회원수", "2")]

/-- Witness for `c5_highperf_invariant`: ingesting rates `20` and `5`
selects the rate-`20` record (threshold `max(12.5*1.2, 8) = 15`). -/
theorem c5_highperf_invariant_witness :
    ∃ c, (analyze_uploaded_csv now0 freshEngine
        [rowW1, rowW2]).1.highPerformanceCriteria = some c ∧
      c.thresholdRate ≤
        (⟨20, "혜택 메시지", "신용대출", "2025-01-06", ⟨2025, 1, 6⟩, "월", 100, 20⟩ :
          Record).clickRate :=
  (c5_highperf_invariant now0 freshEngine [rowW1, rowW2]).1
    ⟨20, "혜택 메시지", "신용대출", "2025-01-06", ⟨2025, 1, 6⟩, "월", 100, 20⟩
    (by decide)

/-- C10: when no accepted record has a strictly positive click rate, the
whole high-performance block is skipped — the high-performance set is
empty and the criteria / duplicate-aggregation attributes are exactly as
they were before the call (never computed for this ingest), regardless of
dataset size. -/
theorem c10_no_positive_skips (now : Date) (s : EngineState) (rows : List RawRow)
    (h : ∀ r ∈ rows.filterMap (fun row => process_row now (normalize_fields row)),
      r.clickRate ≤ 0) :
    (analyze_uploaded_csv now s rows).1.highPerformanceMessages = [] ∧
    (analyze_uploaded_csv now s rows).1.highPerformanceCriteria
        = s.highPerformanceCriteria ∧
    (analyze_uploaded_csv now s rows).1.aggregatedHighPerformance
        = s.aggregatedHighPerformance := by
  set recs := rows.filterMap (fun row => process_row now (normalize_fields row)) with hrecs
  have hfilter : (recs.filter (fun r => decide (0 < r.clickRate))) = [] := by
    rw [List.filter_eq_nil_iff]
    intro r hr
    simpa using h r hr
  simp only [analyze_uploaded_csv]
  rw [← hrecs]
  split
  · simp
  · simp only [analyze_patterns, hfilter]
    simp

/-- Witness for `c10_no_positive_skips`: a one-row dataset with click
rate `"0"` on a fresh engine. -/
theorem c10_no_positive_skips_witness :
    (analyze_uploaded_csv now0 freshEngine
        [[("클릭율", "0"), ("발송 문구", "문구"), ("서비스명", "서비스"),
          ("발송일", "2025-01-06"), ("요일", "월"),
          ("발송회원수", "100"), ("클릭회원수", "0")]]).1.highPerformanceMessages = [] ∧
    (analyze_uploaded_csv now0 freshEngine
        [[("클릭율", "0"), ("발송 문구", "문구"), ("서비스명", "서비스"),
          ("발송일", "2025-01-06"), ("요일", "월"),
          ("발송회원수", "100"), ("클릭회원수", "0")]]).1.highPerformanceCriteria
        = freshEngine.highPerformanceCriteria ∧
    (analyze_uploaded_csv now0 freshEngine
        [[("클릭율", "0"), ("발송 문구", "문구"), ("서비스명", "서비스"),
          ("발송일", "2025-01-06"), ("요일", "월"),
          ("발송회원수", "100"), ("클릭회원수", "0")]]).1.aggregatedHighPerformance
        = freshEngine.aggregatedHighPerformance :=
  c10_no_positive_skips now0 freshEngine
    [[("클릭율", "0"), ("발송 문구", "문구"), ("서비스명", "서비스"),
      ("발송일", "2025-01-06"), ("요일", "월"),
      ("발송회원수", "100"), ("클릭회원수", "0")]]
    (by decide)

/-! ### C3: the high-performance threshold -/

/-- A raw row with click rate `0`. -/
def rowZ0 : RawRow :=
  [("클릭율", "0"), ("발송 문구", "문구A"), ("서비스명", "서비스"),
   ("발송일", "2025-01-06"), ("요일", "월"), ("발송회원수", "100"), ("클릭회원수", "0")]

/-- A raw row with click rate `10`. -/
def rowZ10 : RawRow :=
  [("클릭율", "10"), ("발송 문구", "문구B"), ("서비스명", "서비스"),
   ("발송일", "2025-01-07"), ("요일", "화"), ("발송회원수", "100"), ("클릭회원수", "10")]

/-- C3, counterexample.  Ingesting rates `{0, 10}` stores threshold
`max(10*1.2, 8) = 12` — the average is taken over the strictly positive
rates only — while the claim's `max(overallAvg*1.2, 8)` over the full set
(average `5`) would give `8`. -/
theorem c3_counterexample :
    ((analyze_uploaded_csv now0 freshEngine [rowZ0, rowZ10]).1.highPerformanceCriteria).map
        Criteria.thresholdRate = some 12 ∧
    max (avgQ ((analyze_uploaded_csv now0 freshEngine
        [rowZ0, rowZ10]).1.data.map Record.clickRate) * 1.2) 8 = 8 ∧
    (12 : ℚ) ≠ 8 := by
  decide

/-- C3, amended: after every ingestion that accepts at least one record
with a strictly positive click rate, the stored threshold equals
`max(posAvg * 1.2, 8.0)` where `posAvg` is the mean click rate over the
strictly positive records only (not the full canonical set); when no
accepted record is positive, no threshold is computed at all. -/
theorem c3_threshold (now : Date) (s : EngineState) (rows : List RawRow)
    (h : (rows.filterMap (fun row => process_row now (normalize_fields row))).filter
        (fun r => decide (0 < r.clickRate)) ≠ []) :
    ∃ c, (analyze_uploaded_csv now s rows).1.highPerformanceCriteria = some c ∧
      c.avgRate = avgQ (((rows.filterMap
          (fun row => process_row now (normalize_fields row))).filter
          (fun r => decide (0 < r.clickRate))).map Record.clickRate) ∧
      c.thresholdRate = max (c.avgRate * 1.2) 8 := by
  set recs := rows.filterMap (fun row => process_row now (normalize_fields row)) with hrecs
  have hrne : recs.isEmpty = false := by
    cases hc : recs with
    | nil => rw [hc] at h; simp at h
    | cons a t => rfl
  have hpos : ((recs.filter (fun r => decide (0 < r.clickRate))).map
      Record.clickRate).isEmpty = false := by
    cases hc : recs.filter (fun r => decide (0 < r.clickRate)) with
    | nil => exact absurd hc h
    | cons a t => rfl
  simp only [analyze_uploaded_csv]
  rw [← hrecs, hrne]
  simp only [Bool.false_eq_true, if_false, analyze_patterns]
  rw [hpos]
  simp only [Bool.false_eq_true, if_false]
  refine ⟨_, rfl, ?_, rfl⟩
  simp [avgQ, hpos]

/-- Witness for `c3_threshold` at the `{0, 10}` dataset: the stored
criteria average is `10`. -/
theorem c3_threshold_witness :
    ∃ c, (analyze_uploaded_csv now0 freshEngine
        [rowZ0, rowZ10]).1.highPerformanceCriteria = some c ∧
      c.avgRate = avgQ ((([rowZ0, rowZ10] :
          List RawRow).filterMap
          (fun row => process_row now0 (normalize_fields row))).filter
          (fun r => decide (0 < r.clickRate)) |>.map Record.clickRate) ∧
      c.thresholdRate = max (c.avgRate * 1.2) 8 :=
  c3_threshold now0 freshEngine [rowZ0, rowZ10] (by decide)

/-! ### C9: the message matcher -/

/-- C9: the matcher returns at most five results, each with score in
`(0.3, 1]`. -/
theorem c9_match_bounds (store : PatternStore) (u : UserInput) :
    (find_matching_messages store u).length ≤ 5 ∧
    ∀ m ∈ find_matching_messages store u,
      (0.3 : ℚ) < m.score ∧ m.score ≤ 1 := by
  constructor
  · unfold find_matching_messages
    rw [List.length_take]
    exact min_le_left _ _
  · intro m hm
    unfold find_matching_messages at hm
    have hm2 := List.take_subset 5 _ hm
    rw [mem_pySorted] at hm2
    obtain ⟨svc, _, hsvc⟩ := List.mem_flatMap.mp hm2
    split at hsvc
    · simp at hsvc
    · obtain ⟨p, _, hp⟩ := List.mem_filterMap.mp hsvc
      split at hp
      · obtain rfl := Option.some.inj hp
        refine ⟨by assumption, ?_⟩
        simp only [calculate_match_score]
        exact min_le_right _ _
      · exact absurd hp (by simp)

/-- Pattern store built from one historical row. -/
def storeW : PatternStore :=
  analyze_message_patterns [("신용대출", "최대 혜택 할인", 12)]

/-- A match request with two keywords. -/
def uW : UserInput := ⟨"", ["혜택", "최대"], none, "", "none", "none", ""⟩

/-- Witness for `c9_match_bounds`: the stored message matches the request
with score `0.9 ∈ (0.3, 1]`. -/
theorem c9_match_bounds_witness :
    (0.3 : ℚ) < (⟨"최대 혜택 할인", 9/10, 12, "신용대출",
        [.keywordMatch ["혜택", "최대"], .highPerformance 12]⟩ : MatchResult).score ∧
    (⟨"최대 혜택 할인", 9/10, 12, "신용대출",
        [.keywordMatch ["혜택", "최대"], .highPerformance 12]⟩ : MatchResult).score ≤ 1 :=
  (c9_match_bounds storeW uW).2
    ⟨"최대 혜택 할인", 9/10, 12, "신용대출",
      [.keywordMatch ["혜택", "최대"], .highPerformance 12]⟩
    (by decide)

/-! ### C1: failed ingest and the dashboard -/

/-- C1, counterexample.  After a successful ingest, an ingest of zero rows
does NOT leave the previous state untouched: the state was cleared before
processing (lines 34-37), so the dashboard no longer reflects the previous
dataset — it reports not-yet-analyzed. -/
theorem c1_counterexample :
    (get_dashboard_data (analyze_uploaded_csv now0 freshEngine [rowW1]).1).isSome
        = true ∧
    get_dashboard_data
        (analyze_uploaded_csv now0
          (analyze_uploaded_csv now0 freshEngine [rowW1]).1 []).1 = none := by
  decide

/-- C1, amended: an ingest call that accepts zero rows fails, but only
after clearing the previous canonical state: afterwards the record set is
empty, the analysis is marked incomplete, and a dashboard query reports
not-yet-analyzed — regardless of whether a previous successful ingest
existed. -/
theorem c1_empty_ingest_clears (now : Date) (s : EngineState) (rows : List RawRow)
    (h : rows.filterMap (fun row => process_row now (normalize_fields row)) = []) :
    (analyze_uploaded_csv now s rows).2 = none ∧
    (analyze_uploaded_csv now s rows).1.data = [] ∧
    (analyze_uploaded_csv now s rows).1.analysisComplete = false ∧
    get_dashboard_data (analyze_uploaded_csv now s rows).1 = none := by
  simp only [analyze_uploaded_csv]
  rw [h]
  simp [get_dashboard_data]

/-- Witness for `c1_empty_ingest_clears` at the empty row list. -/
theorem c1_empty_ingest_clears_witness :
    (analyze_uploaded_csv now0 freshEngine []).2 = none ∧
    (analyze_uploaded_csv now0 freshEngine []).1.data = [] ∧
    (analyze_uploaded_csv now0 freshEngine []).1.analysisComplete = false ∧
    get_dashboard_data (analyze_uploaded_csv now0 freshEngine []).1 = none :=
  c1_empty_ingest_clears now0 freshEngine [] (by decide)

/-! ### C8: rebuild-from-scratch semantics -/

/-- Two starting states that agree on the two attributes the clearing
step does not reset produce identical ingest results. -/
theorem analyze_uploaded_csv_congr (now : Date) (s s' : EngineState)
    (rows : List RawRow)
    (h1 : s.highPerformanceCriteria = s'.highPerformanceCriteria)
    (h2 : s.aggregatedHighPerformance = s'.aggregatedHighPerformance) :
    analyze_uploaded_csv now s rows = analyze_uploaded_csv now s' rows := by
  simp only [analyze_uploaded_csv, h1, h2]

/-- When the accepted dataset has a strictly positive click rate, every
state field is overwritten, so the starting state is irrelevant. -/
theorem ingest_pos_irrelevant (now : Date) (s : EngineState) (rows : List RawRow)
    (h : (rows.filterMap (fun row => process_row now (normalize_fields row))).filter
        (fun r => decide (0 < r.clickRate)) ≠ []) :
    analyze_uploaded_csv now s rows = analyze_uploaded_csv now freshEngine rows := by
  set recs := rows.filterMap (fun row => process_row now (normalize_fields row)) with hrecs
  have hrne : recs.isEmpty = false := by
    cases hc : recs with
    | nil => rw [hc] at h; simp at h
    | cons a t => rfl
  have hpos : ((recs.filter (fun r => decide (0 < r.clickRate))).map
      Record.clickRate).isEmpty = false := by
    cases hc : recs.filter (fun r => decide (0 < r.clickRate)) with
    | nil => exact absurd hc h
    | cons a t => rfl
  simp only [analyze_uploaded_csv]
  rw [← hrecs, hrne]
  simp only [Bool.false_eq_true, if_false, analyze_patterns]
  rw [hpos]
  simp only [Bool.false_eq_true, if_false]

/-- When no accepted record is positively rated, the stale
`high_performance_criteria` / `aggregated_high_performance` attributes
survive the ingest unchanged. -/
theorem ingest_nonpos_attrs (now : Date) (s : EngineState) (rows : List RawRow)
    (h : (rows.filterMap (fun row => process_row now (normalize_fields row))).filter
        (fun r => decide (0 < r.clickRate)) = []) :
    (analyze_uploaded_csv now s rows).1.highPerformanceCriteria
        = s.highPerformanceCriteria ∧
    (analyze_uploaded_csv now s rows).1.aggregatedHighPerformance
        = s.aggregatedHighPerformance := by
  set recs := rows.filterMap (fun row => process_row now (normalize_fields row)) with hrecs
  simp only [analyze_uploaded_csv]
  rw [← hrecs]
  split
  · simp
  · simp only [analyze_patterns, h]
    simp

/-- C8, amended: every ingestion clears and rebuilds the record set, the
high-performance list and the performance patterns from the new rows
alone, but the `high_performance_criteria` and
`aggregated_high_performance` attributes persist when the new dataset has
no positively-rated record.  Consequently (1) re-ingesting any dataset is
idempotent — the second call reproduces the first call's state and result
exactly — and (2) ingesting after an arbitrary prior state equals
ingesting into a fresh engine whenever the dataset has at least one
record with strictly positive click rate. -/
theorem c8_rebuild :
    (∀ (now : Date) (s : EngineState) (rows : List RawRow),
        analyze_uploaded_csv now (analyze_uploaded_csv now s rows).1 rows
          = analyze_uploaded_csv now s rows) ∧
    (∀ (now : Date) (s : EngineState) (rows : List RawRow),
        (rows.filterMap (fun row => process_row now (normalize_fields row))).filter
            (fun r => decide (0 < r.clickRate)) ≠ [] →
        analyze_uploaded_csv now s rows = analyze_uploaded_csv now freshEngine rows) := by
  refine ⟨?_, ingest_pos_irrelevant⟩
  intro now s rows
  by_cases hpos : (rows.filterMap
      (fun row => process_row now (normalize_fields row))).filter
      (fun r => decide (0 < r.clickRate)) = []
  · obtain ⟨h1, h2⟩ := ingest_nonpos_attrs now s rows hpos
    exact analyze_uploaded_csv_congr now _ s rows h1 h2
  · rw [ingest_pos_irrelevant now _ rows hpos, ingest_pos_irrelevant now s rows hpos]

/-- Witness for `c8_rebuild`: re-ingesting the rate-`20` dataset is
idempotent, and ingesting the positively-rated `{10}` dataset after a
prior ingest equals ingesting it fresh. -/
theorem c8_rebuild_witness :
    analyze_uploaded_csv now0
        (analyze_uploaded_csv now0 freshEngine [rowW1]).1 [rowW1]
      = analyze_uploaded_csv now0 freshEngine [rowW1] ∧
    analyze_uploaded_csv now0
        (analyze_uploaded_csv now0 freshEngine [rowW1]).1 [rowZ10]
      = analyze_uploaded_csv now0 freshEngine [rowZ10] :=
  ⟨c8_rebuild.1 now0 freshEngine [rowW1],
   c8_rebuild.2 now0 (analyze_uploaded_csv now0 freshEngine [rowW1]).1 [rowZ10]
     (by decide)⟩

/-- C8, counterexample.  Ingest the rate-`20` dataset A, then the
rate-`0` dataset B: the stale criteria from A survive, so the resulting
aggregates differ from ingesting B into a fresh engine (which has no
criteria at all). -/
theorem c8_counterexample :
    (analyze_uploaded_csv now0 (analyze_uploaded_csv now0 freshEngine [rowW1]).1
        [rowZ0]).1.highPerformanceCriteria ≠
      (analyze_uploaded_csv now0 freshEngine [rowZ0]).1.highPerformanceCriteria := by
  decide

end Claims

end LoanNotif
